import Mathlib

/-!
Shallow embedding of `ci/get_hdf5.py`, the CI helper that downloads an HDF5
source archive, builds it with autotools (POSIX) or CMake (Windows), and
reports the installed files.

Modelling conventions:
* `World` abstracts the environment the script runs in: the host platform
  (`sys.platform.startswith("win")`), the set of existing filesystem paths
  (for `os.path.exists`), the HTTP status each URL would answer with, the
  exit code of each subprocess (keyed by its argv), and the names of the two
  `TemporaryDirectory` values the script creates.
* Observable actions (downloads, extractions, subprocess invocations,
  `chdir`, the dll copy, the final file listing, and the stderr messages the
  spec refers to) are recorded as a trace of `Event`s.  Purely cosmetic
  echoes of command lines to stderr are not modelled as events.
* Python exceptions are modelled by `PyError`; `sys.exit(1)` by the
  `Outcome.exited 1` terminal outcome; an uncaught exception by
  `Outcome.raised`.
* Machine strings are Lean `String`s; `os.path.join` is modelled for the
  POSIX separator (the separator choice is immaterial to every claim).
-/

namespace GetHdf5

/-- Python exceptions that `ci/get_hdf5.py` can raise. -/
inductive PyError where
  | typeError
  | calledProcessError
  | keyError
  | runtimeError
deriving DecidableEq

/-- Observable actions of a run of the script. -/
inductive Event where
  /-- stderr/stdout message the script prints. -/
  | msg (s : String)
  /-- the response body of `url` was streamed into the temporary file
      (lines 54 and 57, on success of `raise_for_status`). -/
  | downloaded (url : String)
  /-- `ZipFile(...).extractall` (lines 75 and 76). -/
  | extractedZip
  /-- `GzipFile` + `TarFile(...).extractall` (lines 78 to 80). -/
  | extractedTarGz
  /-- `os.chdir d` (lines 94, 97 and 121). -/
  | changedDir (d : String)
  /-- a checked subprocess `run(cmd)` was invoked with argv `cmd`. -/
  | ranCmd (cmd : List String)
  /-- `run` on a plain command string (line 188, unchecked). -/
  | ranStr (s : String)
  /-- `os.makedirs p` (line 182). -/
  | madeDirs (p : String)
  /-- the dll copy loop from `install_path/bin` to `install_path/lib`
      (lines 124 to 126). -/
  | copiedDlls (install_path : String)
  /-- the recursive `os.walk` listing of `p` (lines 201 to 203). -/
  | listedFiles (p : String)
deriving DecidableEq

/-- Terminal outcome of a run. -/
inductive Outcome where
  | finished
  | exited (code : Nat)
  | raised (e : PyError)
deriving DecidableEq

/-- The environment the script runs in (platform, filesystem, network,
subprocess exit codes, and the temporary directories it will be handed). -/
structure World where
  /-- `sys.platform.startswith("win")` (lines 18, 68, 74, 123). -/
  isWin : Bool
  /-- paths for which `os.path.exists` answers true. -/
  files : List String
  /-- HTTP status code answered for each URL. -/
  httpStatus : String → Nat
  /-- exit code of each checked subprocess, keyed by its argv. -/
  exitCode : List String → Int
  /-- the `TemporaryDirectory` of line 73 (`hdf5_extract_path`). -/
  extractDir : String
  /-- the `TemporaryDirectory` of line 92 (`cmake_work_dir`). -/
  workDir : String

/-- The five environment variables `main` reads (lines 174 to 178). -/
structure Env where
  hdf5Dir : Option String
  hdf5Version : Option String
  hdf5VsVersion : Option String
  h5pyUsePfx : Option String
  hdf5Mpi : Option String

/-- `posixpath.join` on two components, as the script uses it. -/
def pjoin2 (a b : String) : String :=
  if b.data.head? = some '/' then b
  else if a.data = [] ∨ a.data.getLast? = some '/' then a ++ b
  else a ++ "/" ++ b

/-- Python `str.split(".")` (a single-character separator splits at every
occurrence and keeps empty pieces). -/
def splitDotAux : List Char → List Char → List String
  | [], acc => [String.mk acc.reverse]
  | c :: cs, acc =>
    if c = '.' then String.mk acc.reverse :: splitDotAux cs []
    else splitDotAux cs (c :: acc)

/-- Python `version.split(".")`. -/
def splitDot (s : String) : List String := splitDotAux s.data []

/-- Line 16, with `{version}` substituted. -/
def HDF5_18_URL (version : String) : String :=
  "https://www.hdfgroup.org/ftp/HDF5/releases/hdf5-1.8/hdf5-" ++ version ++ "/src/"

/-- Line 17, with `{version}` substituted. -/
def HDF5_110_URL (version : String) : String :=
  "https://www.hdfgroup.org/ftp/HDF5/releases/hdf5-1.10/hdf5-" ++ version ++ "/src/"

/-- Lines 18 to 22: the 1.8-tree archive name, `.zip` on the Windows family
and `.gzip` elsewhere. -/
def HDF5_18_FILE (isWin : Bool) (version : String) : String :=
  HDF5_18_URL version ++ "hdf5-" ++ version ++ (if isWin then ".zip" else ".gzip")

/-- Lines 18 to 23: the 1.10-tree archive name, `.zip` on the Windows family
and `.tar.gz` elsewhere. -/
def HDF5_110_FILE (isWin : Bool) (version : String) : String :=
  HDF5_110_URL version ++ "hdf5-" ++ version ++ (if isWin then ".zip" else ".tar.gz")

/-- Lines 26 to 30. -/
def CMAKE_CONFIGURE_CMD : List String :=
  ["cmake", "-DBUILD_SHARED_LIBS:BOOL=ON", "-DCMAKE_BUILD_TYPE:STRING=RELEASE",
   "-DHDF5_BUILD_CPP_LIB=OFF", "-DHDF5_BUILD_HL_LIB=ON",
   "-DHDF5_BUILD_TOOLS:BOOL=ON"]

/-- Line 31. -/
def CMAKE_BUILD_CMD : List String := ["cmake", "--build"]

/-- Line 32. -/
def CMAKE_INSTALL_ARG : List String := ["--target", "install", "--config", "Release"]

/-- Line 33, with `{install_path}` substituted. -/
def CMAKE_INSTALL_PATH_ARG (install_path : String) : String :=
  "-DCMAKE_INSTALL_PREFIX=" ++ install_path

/-- Line 34 (source name `CMAKE_HDF5_LIBRARY_PREFIX`). -/
def CMAKE_HDF5_LIB_PFX : List String := ["-DHDF5_EXTERNAL_LIB_PREFIX=h5py_"]

/-- Line 35, with `{version}` substituted. -/
def REL_PATH_TO_UNPACKED_DIR (version : String) : String := "hdf5-" ++ version

/-- Line 36. -/
def DEFAULT_VERSION : String := "1.8.17"

/-- Lines 37 to 44; Python dict lookup, `none` meaning `KeyError`. -/
def VSVERSION_TO_GENERATOR : String → Option String
  | "9" => some "Visual Studio 9 2008"
  | "10" => some "Visual Studio 10 2010"
  | "14" => some "Visual Studio 14 2015"
  | "9-64" => some "Visual Studio 9 2008 Win64"
  | "10-64" => some "Visual Studio 10 2010 Win64"
  | "14-64" => some "Visual Studio 14 2015 Win64"
  | _ => none

/-- Lines 48 to 51: which archive URL `download_hdf5` selects. -/
def download_url (isWin : Bool) (version : String) : String :=
  if (splitDot version).take 2 = ["1", "10"] then HDF5_110_FILE isWin version
  else HDF5_18_FILE isWin version

/-- `requests.Response.raise_for_status` raises `HTTPError` exactly for the
4xx and 5xx status codes. -/
def raise_for_status (status : Nat) : Bool :=
  decide (400 ≤ status ∧ status < 600)

/-- Lines 47 to 62: `download_hdf5`.  Returns the events and, on the
`except requests.HTTPError` path, the `exit(1)` code. -/
def download_hdf5 (w : World) (version : String) : List Event × Option Nat :=
  let file := download_url w.isWin version
  if raise_for_status (w.httpStatus file) then
    ([Event.msg ("Downloading " ++ file),
      Event.msg ("Failed to download hdf5 version " ++ version ++ ", exiting")],
     some 1)
  else
    ([Event.msg ("Downloading " ++ file), Event.downloaded file], none)

/-- Lines 129 to 136: `get_autotools_cmds`.  The configure argv embeds
`install_path` as it is, so a `None` install path puts `None` into the
command list (modelled by `Option String` elements). -/
def get_autotools_cmds (install_path : Option String) (with_mpi : Bool) :
    List (Option String) × List (List String) :=
  let parallel_args := if with_mpi then [some "--enable-parallel"] else []
  ([some "./configure", some "--prefix", install_path] ++ parallel_args,
   [["make"], ["make", "install"]])

/-- Lines 157 and 158: `get_unpacked_path`. -/
def get_unpacked_path (version extract_point : String) : String :=
  pjoin2 extract_point (REL_PATH_TO_UNPACKED_DIR version)

/-- Lines 161 to 164: `get_cmake_install_path` renders the install-path flag,
or a blank argument `" "` when no install path is given. -/
def get_cmake_install_path : Option String → String
  | some p => CMAKE_INSTALL_PATH_ARG p
  | none => " "

/-- Lines 139 to 154: `get_cmake_cmds`, the five-parameter function as
defined in the source.  All of its command elements are genuine strings. -/
def get_cmake_cmds (version : String) (install_path : Option String)
    (cmake_generator : Option String) ( use_pfx : Bool) (hdf5_extract_path : String) :
    List (Option String) × List (List String) :=
  let generator_args : List String :=
    match cmake_generator with
    | some g => ["-G", g]
    | none => []
  let pfx_args := if use_pfx then CMAKE_HDF5_LIB_PFX else []
  ((CMAKE_CONFIGURE_CMD ++
      [get_cmake_install_path install_path,
       get_unpacked_path version hdf5_extract_path] ++ generator_args ++ pfx_args).map some,
   [CMAKE_BUILD_CMD ++ ["."] ++ CMAKE_INSTALL_ARG])

/-- Number of required parameters of `get_cmake_cmds` (lines 139 to 141). -/
def get_cmake_cmds_paramCount : Nat := 5

/-- Number of arguments `build_hdf5` passes to `get_cmake_cmds`
(lines 83 to 85): `version, install_path, cmake_generator, use_prefix`. -/
def get_cmake_cmds_callArgCount : Nat := 4

/-- Lines 167 to 170: `hdf5_cached`.  With a `None` install path,
`os.path.join(None, "lib", "hdf5.dll")` raises `TypeError`. -/
def hdf5_cached (fs : List String) : Option String → Except PyError Bool
  | none => Except.error PyError.typeError
  | some install_path =>
    Except.ok (decide (pjoin2 (pjoin2 install_path "lib") "hdf5.dll" ∈ fs))

/-- `p.check_returncode()` after `run cmd`: `CalledProcessError` on a
nonzero exit code. -/
def checkRun (w : World) (cmd : List String) : Option PyError :=
  if w.exitCode cmd = 0 then none else some PyError.calledProcessError

/-- Lines 111 to 115: run the build commands in order, checking each exit
code, stopping at the first failure. -/
def runBuildCmds (w : World) : List (List String) → List Event × Option PyError
  | [] => ([], none)
  | c :: cs =>
    match checkRun w c with
    | some e => ([Event.ranCmd c], some e)
    | none =>
      let r := runBuildCmds w cs
      (Event.ranCmd c :: r.1, r.2)

/-- `" ".join` over a Python list that may contain `None`: a `None` element
raises `TypeError`, otherwise the genuine string list results. -/
def seqOpts : List (Option String) → Option (List String)
  | [] => some []
  | none :: _ => none
  | some s :: rest => (seqOpts rest).map (fun l => s :: l)

/-- Python `str(x)` as used by `"...".format` on an `Option`al value. -/
def pyStr : Option String → String
  | none => "None"
  | some s => s

/-- Result of `build_hdf5`: events, the process working directory at the
moment the call returns or raises, and the error if it raised. -/
structure BuildRes where
  events : List Event
  cwd : String
  outcome : Option PyError

/-- Lines 91 to 126: everything from `old_dir = getcwd()` on, given the
configure argv and the build command list.  On the CMake branch the script
changes into the fresh work directory; on the autotools branch it changes
into the unpacked source tree and runs `chmod +x autogen.sh` and
`./autogen.sh`, each checked.  Then: `" ".join(cfg_cmd)` (line 106, a
`TypeError` if the argv contains `None`), the checked configure run, the
checked build commands, the final report message, `chdir(old_dir)`, and on
the Windows family the dll copy (whose `pjoin(install_path, "bin/*.dll")`
raises `TypeError` on a `None` install path). -/
def buildSteps (w : World) (version : String) (install_path : Option String)
    (cfg_cmd : List (Option String)) (build_cmds : List (List String))
    (evs0 : List Event) (old_dir : String) : BuildRes :=
  let target := if w.isWin then w.workDir else get_unpacked_path version w.extractDir
  let evs1 := evs0 ++ [Event.changedDir target]
  let pre : List Event × Option PyError :=
    if w.isWin then ([], none)
    else
      match checkRun w ["chmod", "+x", "autogen.sh"] with
      | some e => ([Event.ranCmd ["chmod", "+x", "autogen.sh"]], some e)
      | none =>
        match checkRun w ["./autogen.sh"] with
        | some e =>
          ([Event.ranCmd ["chmod", "+x", "autogen.sh"],
            Event.ranCmd ["./autogen.sh"]], some e)
        | none =>
          ([Event.ranCmd ["chmod", "+x", "autogen.sh"],
            Event.ranCmd ["./autogen.sh"]], none)
  match pre.2 with
  | some e => ⟨evs1 ++ pre.1, target, some e⟩
  | none =>
    match seqOpts cfg_cmd with
    | none => ⟨evs1 ++ pre.1, target, some PyError.typeError⟩
    | some cfg =>
      match checkRun w cfg with
      | some e => ⟨evs1 ++ pre.1 ++ [Event.ranCmd cfg], target, some e⟩
      | none =>
        let built := runBuildCmds w build_cmds
        match built.2 with
        | some e => ⟨evs1 ++ pre.1 ++ [Event.ranCmd cfg] ++ built.1, target, some e⟩
        | none =>
          let evs2 := evs1 ++ pre.1 ++ [Event.ranCmd cfg] ++ built.1
            ++ [Event.msg ("Installed HDF5 version " ++ version ++ " to "
                            ++ pyStr install_path),
                Event.changedDir old_dir]
          if w.isWin then
            match install_path with
            | none => ⟨evs2, old_dir, some PyError.typeError⟩
            | some p => ⟨evs2 ++ [Event.copiedDlls p], old_dir, none⟩
          else ⟨evs2, old_dir, none⟩

/-- Lines 65 to 126: `build_hdf5`.  On the Windows family the archive is
unzipped and then `get_cmake_cmds` is called with four positional arguments
(lines 83 to 85) although its definition (lines 139 to 141) requires five
(`hdf5_extract_path` is never passed), so Python raises `TypeError` before
the body of `get_cmake_cmds` runs; the guard below keeps the call-that-would-
have-been visible (with the evidently intended fifth argument) in the dead
branch.  Elsewhere the tar.gz archive is extracted and the autotools
commands are built and run. -/
def build_hdf5 (w : World) (version : String) (install_path cmake_generator : Option String)
    ( use_pfx with_mpi : Bool) (old_dir : String) : BuildRes :=
  if w.isWin then
    if get_cmake_cmds_callArgCount = get_cmake_cmds_paramCount then
      let cmds := get_cmake_cmds version install_path cmake_generator use_pfx w.extractDir
      buildSteps w version install_path cmds.1 cmds.2 [Event.extractedZip] old_dir
    else
      ⟨[Event.extractedZip], old_dir, some PyError.typeError⟩
  else
    let cmds := get_autotools_cmds install_path with_mpi
    buildSteps w version install_path cmds.1 cmds.2 [Event.extractedTarGz] old_dir

/-- Lines 192 to 203 of `main`: the cache check, the download, the build and
the final report, given the resolved configuration. -/
def mainAfterCfg (w : World) (install_path : Option String) (version : String)
    (cmake_generator : Option String) ( use_pfx with_mpi : Bool)
    (evs0 : List Event) (cwd0 : String) : List Event × Outcome × String :=
  match hdf5_cached w.files install_path with
  | Except.error e => (evs0, Outcome.raised e, cwd0)
  | Except.ok true =>
    let post : List Event :=
      match install_path with
      | some p => [Event.msg "hdf5 files: ", Event.listedFiles p]
      | none => []
    (evs0 ++ [Event.msg "using cached hdf5"] ++ post, Outcome.finished, cwd0)
  | Except.ok false =>
    let dl := download_hdf5 w version
    match dl.2 with
    | some code => (evs0 ++ dl.1, Outcome.exited code, cwd0)
    | none =>
      let b := build_hdf5 w version install_path cmake_generator use_pfx with_mpi cwd0
      match b.outcome with
      | some e => (evs0 ++ dl.1 ++ b.events, Outcome.raised e, b.cwd)
      | none =>
        let post : List Event :=
          match install_path with
          | some p => [Event.msg "hdf5 files: ", Event.listedFiles p]
          | none => []
        (evs0 ++ dl.1 ++ b.events ++ post, Outcome.finished, b.cwd)

/-- Lines 173 to 203: `main`.  Resolves the configuration from the
environment, optionally creates the install directory, resolves the
Visual-Studio generator (a `KeyError` on an unknown token), runs the
vs2008 patch for the `9-64` token, and hands over to the cache check,
download, build and report sequence. -/
def main (w : World) (env : Env) (cwd0 : String) : List Event × Outcome × String :=
  let install_path := env.hdf5Dir
  let version := env.hdf5Version.getD DEFAULT_VERSION
  let use_pfx := env.h5pyUsePfx.isSome
  let with_mpi := env.hdf5Mpi == some "ON"
  let evs0 : List Event :=
    match install_path with
    | some p => if p ∈ w.files then [] else [Event.madeDirs p]
    | none => []
  match env.hdf5VsVersion with
  | none => mainAfterCfg w install_path version none use_pfx with_mpi evs0 cwd0
  | some vs =>
    match VSVERSION_TO_GENERATOR vs with
    | none => (evs0, Outcome.raised PyError.keyError, cwd0)
    | some gen =>
      let evs1 := evs0 ++
        (if vs = "9-64" then [Event.ranStr "ci\\appveyor\\vs2008_patch\\setup_x64.bat"]
         else [])
      mainAfterCfg w install_path version (some gen) use_pfx with_mpi evs1 cwd0

end GetHdf5

namespace GetHdf5

/-! ### Concrete worlds and environments used by the closed statements -/

/-- A POSIX host where `/tmp/out` exists, every download answers 200 and
every subprocess succeeds. -/
def wLinux : World :=
  { isWin := false, files := ["/tmp/out"], httpStatus := fun _ => 200,
    exitCode := fun _ => 0, extractDir := "/tmpE", workDir := "/tmpW" }

/-- A Windows-family host where every download answers 200 and every
subprocess succeeds. -/
def wWin : World :=
  { isWin := true, files := [], httpStatus := fun _ => 200,
    exitCode := fun _ => 0, extractDir := "/tmpE", workDir := "/tmpW" }

/-- Like `wLinux` but every download answers 304 (Not Modified). -/
def w304 : World :=
  { isWin := false, files := ["/tmp/out"], httpStatus := fun _ => 304,
    exitCode := fun _ => 0, extractDir := "/tmpE", workDir := "/tmpW" }

/-- Like `wLinux` but every download answers 404. -/
def w404 : World :=
  { isWin := false, files := ["/tmp/out"], httpStatus := fun _ => 404,
    exitCode := fun _ => 0, extractDir := "/tmpE", workDir := "/tmpW" }

/-- Like `wLinux` but `make install` exits with code 2. -/
def wMi : World :=
  { isWin := false, files := ["/tmp/out"], httpStatus := fun _ => 200,
    exitCode := fun c => if c = ["make", "install"] then 2 else 0,
    extractDir := "/tmpE", workDir := "/tmpW" }

/-- Like `wLinux` but `./configure` exits with code 1. -/
def wCfgFail : World :=
  { isWin := false, files := ["/tmp/out"], httpStatus := fun _ => 200,
    exitCode := fun c => if c = ["./configure", "--prefix", "/tmp/out"] then 1 else 0,
    extractDir := "/tmpE", workDir := "/tmpW" }

/-- `HDF5_DIR` unset, `HDF5_VERSION=1.10.2`, `HDF5_VSVERSION=14-64`,
the environment of the Windows end-to-end scenario. -/
def envC1 : Env :=
  { hdf5Dir := none, hdf5Version := some "1.10.2",
    hdf5VsVersion := some "14-64", h5pyUsePfx := none, hdf5Mpi := none }

/-- `HDF5_DIR=/tmp/out`, `HDF5_VERSION=1.8.17`, MPI and the library
symbol-prefix flag unset, the environment of the Linux end-to-end scenario. -/
def envC2 : Env :=
  { hdf5Dir := some "/tmp/out", hdf5Version := some "1.8.17",
    hdf5VsVersion := none, h5pyUsePfx := none, hdf5Mpi := none }

/-- The Visual-Studio token, if present, resolves in the generator table
(so line 184 raises no `KeyError`). -/
def vsLookupOk : Option String → Bool
  | none => true
  | some s => (VSVERSION_TO_GENERATOR s).isSome

/-! ### Claims -/

/-- C1: the end-to-end Windows scenario of the spec (version `1.10.2`,
`vs_version=14-64`, `install_path=None`) does not perform the promised
download / zip extraction / CMake configure / dll copy: the run raises
`TypeError` in `hdf5_cached(None)` and produces no event at all; and even
with an install path supplied, `build_hdf5` on the Windows family raises
`TypeError` right after the zip extraction (the four-argument call to the
five-parameter `get_cmake_cmds`), before any configure command exists. -/
theorem windows_cmake_scenario_crashes :
    main wWin envC1 "/home/ci" = ([], Outcome.raised PyError.typeError, "/home/ci") ∧
    (build_hdf5 wWin "1.10.2" (some "/tmp/out") (some "Visual Studio 14 2015 Win64")
        false false "/home/ci").events = [Event.extractedZip] ∧
    (build_hdf5 wWin "1.10.2" (some "/tmp/out") (some "Visual Studio 14 2015 Win64")
        false false "/home/ci").outcome = some PyError.typeError := by
  refine ⟨by decide, by decide, by decide⟩

/-- C2: with version `1.8.17` on a non-Windows host, install path `/tmp/out`,
MPI and the symbol-prefix flag disabled, the run downloads the `.gzip` 1.8
source, extracts it with gzip+tar, runs `./autogen.sh` preparation and then
`./configure --prefix /tmp/out`, `make`, `make install` from the unpacked
`hdf5-1.8.17` directory, and finishes with a recursive file listing of
`/tmp/out`. -/
theorem linux_autotools_end_to_end :
    main wLinux envC2 "/home/ci" =
      ([Event.msg "Downloading https://www.hdfgroup.org/ftp/HDF5/releases/hdf5-1.8/hdf5-1.8.17/src/hdf5-1.8.17.gzip",
        Event.downloaded "https://www.hdfgroup.org/ftp/HDF5/releases/hdf5-1.8/hdf5-1.8.17/src/hdf5-1.8.17.gzip",
        Event.extractedTarGz,
        Event.changedDir "/tmpE/hdf5-1.8.17",
        Event.ranCmd ["chmod", "+x", "autogen.sh"],
        Event.ranCmd ["./autogen.sh"],
        Event.ranCmd ["./configure", "--prefix", "/tmp/out"],
        Event.ranCmd ["make"],
        Event.ranCmd ["make", "install"],
        Event.msg "Installed HDF5 version 1.8.17 to /tmp/out",
        Event.changedDir "/home/ci",
        Event.msg "hdf5 files: ",
        Event.listedFiles "/tmp/out"],
       Outcome.finished, "/home/ci") := by decide

/-- C3 counterexample: the version string `1.100` begins with `1.10` (as a
string prefix) yet `download_hdf5` routes it to the 1.8 release tree, so
routing is not by the string prefix `1.10`. -/
theorem download_url_prefix_cex :
    List.IsPrefix "1.10".data "1.100".data ∧
    download_url false "1.100" =
      "https://www.hdfgroup.org/ftp/HDF5/releases/hdf5-1.8/hdf5-1.100/src/hdf5-1.100.gzip" := by
  exact ⟨by decide, by decide⟩

/-- C3 (amended): URL selection is deterministic and routes by the first two
dot-separated components of the version: exactly `1` and `10` selects the
1.10 release tree, everything else the 1.8 tree; the archive extension is
`.zip` on the Windows family, else `.tar.gz` on the 1.10 tree and `.gzip`
on the 1.8 tree. -/
theorem download_url_routing (isWin : Bool) (v : String) :
    download_url isWin v =
      if (splitDot v).take 2 = ["1", "10"]
      then "https://www.hdfgroup.org/ftp/HDF5/releases/hdf5-1.10/hdf5-" ++ v ++ "/src/hdf5-"
             ++ v ++ (if isWin then ".zip" else ".tar.gz")
      else "https://www.hdfgroup.org/ftp/HDF5/releases/hdf5-1.8/hdf5-" ++ v ++ "/src/hdf5-"
             ++ v ++ (if isWin then ".zip" else ".gzip") := by
  unfold download_url HDF5_110_FILE HDF5_18_FILE HDF5_110_URL HDF5_18_URL
  split <;> simp [String.append_assoc]

/-- C4 counterexample: a 304 response is not a 2xx status, yet the run does
not exit: the body is treated as downloaded, the archive is extracted and
the build proceeds to a normal finish (`raise_for_status` raises only for
4xx and 5xx). -/
theorem status_304_not_fatal_cex :
    w304.httpStatus (download_url false "1.8.17") = 304 ∧
    ¬(200 ≤ 304 ∧ 304 < 300) ∧
    (main w304 envC2 "/home/ci").2.1 = Outcome.finished ∧
    Event.extractedTarGz ∈ (main w304 envC2 "/home/ci").1 := by
  exact ⟨by decide, by decide, by decide, by decide⟩

/-- C4 (amended): if the HTTP GET answers a 4xx or 5xx status, the run
prints the version-specific failure diagnostic and terminates with exit
status 1, and the trace shows no extraction and no build subprocess at all
(no retry, no recovery). -/
theorem download_http_error_exits1 (w : World) (p v cwd0 : String)
    (hp : p ∈ w.files)
    (hnc : pjoin2 (pjoin2 p "lib") "hdf5.dll" ∉ w.files)
    (h4 : 400 ≤ w.httpStatus (download_url w.isWin v))
    (h6 : w.httpStatus (download_url w.isWin v) < 600) :
    main w ⟨some p, some v, none, none, none⟩ cwd0 =
      ([Event.msg ("Downloading " ++ download_url w.isWin v),
        Event.msg ("Failed to download hdf5 version " ++ v ++ ", exiting")],
       Outcome.exited 1, cwd0) := by
  simp [main, mainAfterCfg, hdf5_cached, hnc, hp, download_hdf5, raise_for_status, h4, h6]

/-- C4 witness: the amended statement at the 404 world. -/
theorem download_http_error_exits1_witness :
    main w404 ⟨some "/tmp/out", some "1.8.17", none, none, none⟩ "/home/ci" =
      ([Event.msg ("Downloading " ++ download_url w404.isWin "1.8.17"),
        Event.msg ("Failed to download hdf5 version " ++ "1.8.17" ++ ", exiting")],
       Outcome.exited 1, "/home/ci") :=
  download_http_error_exits1 w404 "/tmp/out" "1.8.17" "/home/ci"
    (by decide) (by decide) (by decide) (by decide)

/-- C5: when `make install` exits with a nonzero status (all earlier steps
succeeding), the run ends in an uncaught `CalledProcessError`: the trace
stops at the failing `make install`, no later command runs, and the final
reporting (the recursive listing of the install path) never happens. -/
theorem make_install_failure_aborts (w : World) (p v cwd0 : String)
    (hwin : w.isWin = false)
    (hp : p ∈ w.files)
    (hnc : pjoin2 (pjoin2 p "lib") "hdf5.dll" ∉ w.files)
    (hst : raise_for_status (w.httpStatus (download_url false v)) = false)
    (hchmod : w.exitCode ["chmod", "+x", "autogen.sh"] = 0)
    (hauto : w.exitCode ["./autogen.sh"] = 0)
    (hcfg : w.exitCode ["./configure", "--prefix", p] = 0)
    (hmake : w.exitCode ["make"] = 0)
    (hmi : w.exitCode ["make", "install"] ≠ 0) :
    main w ⟨some p, some v, none, none, none⟩ cwd0 =
      ([Event.msg ("Downloading " ++ download_url false v),
        Event.downloaded (download_url false v),
        Event.extractedTarGz,
        Event.changedDir (get_unpacked_path v w.extractDir),
        Event.ranCmd ["chmod", "+x", "autogen.sh"],
        Event.ranCmd ["./autogen.sh"],
        Event.ranCmd ["./configure", "--prefix", p],
        Event.ranCmd ["make"],
        Event.ranCmd ["make", "install"]],
       Outcome.raised PyError.calledProcessError,
       get_unpacked_path v w.extractDir) := by
  simp [main, mainAfterCfg, hdf5_cached, hnc, hp, download_hdf5, hwin, hst,
        build_hdf5, buildSteps, get_autotools_cmds, seqOpts, runBuildCmds, checkRun,
        hchmod, hauto, hcfg, hmake, hmi]

/-- C5 witness: the statement at the world whose `make install` exits 2. -/
theorem make_install_failure_aborts_witness :
    main wMi ⟨some "/tmp/out", some "1.8.17", none, none, none⟩ "/home/ci" =
      ([Event.msg ("Downloading " ++ download_url false "1.8.17"),
        Event.downloaded (download_url false "1.8.17"),
        Event.extractedTarGz,
        Event.changedDir (get_unpacked_path "1.8.17" wMi.extractDir),
        Event.ranCmd ["chmod", "+x", "autogen.sh"],
        Event.ranCmd ["./autogen.sh"],
        Event.ranCmd ["./configure", "--prefix", "/tmp/out"],
        Event.ranCmd ["make"],
        Event.ranCmd ["make", "install"]],
       Outcome.raised PyError.calledProcessError,
       get_unpacked_path "1.8.17" wMi.extractDir) :=
  make_install_failure_aborts wMi "/tmp/out" "1.8.17" "/home/ci"
    (by decide) (by decide) (by decide) (by decide) (by decide)
    (by decide) (by decide) (by decide) (by decide)

/-- C6: for every filesystem and every (string) install path, `hdf5_cached`
answers true exactly when `lib/hdf5.dll` under the install path exists, and
false exactly when it does not — so the answer depends on nothing else in
the filesystem; the model is a pure function of the filesystem, matching
the side-effect-free source. -/
theorem hdf5_cached_spec (fs : List String) (p : String) :
    (hdf5_cached fs (some p) = Except.ok true ↔ pjoin2 (pjoin2 p "lib") "hdf5.dll" ∈ fs) ∧
    (hdf5_cached fs (some p) = Except.ok false ↔ pjoin2 (pjoin2 p "lib") "hdf5.dll" ∉ fs) := by
  unfold hdf5_cached
  constructor
  · constructor
    · intro h
      simpa using h
    · intro h
      simp [h]
  · constructor
    · intro h
      simpa using h
    · intro h
      simp [h]

/-- C7: with no install path the CMake install-path argument is the blank
argument `" "` (never a flag with `None` substituted in), and with an
install path it is the formatted `-DCMAKE_INSTALL_PREFIX=` flag. -/
theorem get_cmake_install_path_spec :
    get_cmake_install_path none = " " ∧
    ∀ p : String, get_cmake_install_path (some p) = "-DCMAKE_INSTALL_PREFIX=" ++ p :=
  ⟨rfl, fun _ => rfl⟩

/-- C8 counterexample: in a build whose `./configure` fails, `build_hdf5`
ends (by the propagating `CalledProcessError`) with the working directory
still the unpacked source directory, not the pre-build value `/home/ci`:
the restoring `chdir(old_dir)` of line 121 runs only on normal completion. -/
theorem cwd_not_restored_on_abort_cex :
    (build_hdf5 wCfgFail "1.8.17" (some "/tmp/out") none false false "/home/ci").outcome
      = some PyError.calledProcessError ∧
    (build_hdf5 wCfgFail "1.8.17" (some "/tmp/out") none false false "/home/ci").cwd
      = "/tmpE/hdf5-1.8.17" ∧
    "/tmpE/hdf5-1.8.17" ≠ "/home/ci" := by
  exact ⟨by decide, by decide, by decide⟩

/-- Helper for C8: whenever the lines 91 to 126 of the build step complete
normally, the working directory at the end is the saved `old_dir`. -/
theorem buildSteps_cwd (w : World) (version : String) (install_path : Option String)
    (cfg_cmd : List (Option String)) (build_cmds : List (List String))
    (evs0 : List Event) (old_dir : String)
    (h : (buildSteps w version install_path cfg_cmd build_cmds evs0 old_dir).outcome = none) :
    (buildSteps w version install_path cfg_cmd build_cmds evs0 old_dir).cwd = old_dir := by
  cases hw : w.isWin with
  | true =>
    rcases hs : seqOpts cfg_cmd with _ | cfg
    · simp [buildSteps, hw, hs] at h
    · rcases hc : checkRun w cfg with _ | e
      · rcases hb : (runBuildCmds w build_cmds).2 with _ | e
        · rcases install_path with _ | p
          · simp [buildSteps, hw, hs, hc, hb] at h
          · simp [buildSteps, hw, hs, hc, hb]
        · simp [buildSteps, hw, hs, hc, hb] at h
      · simp [buildSteps, hw, hs, hc] at h
  | false =>
    rcases h1 : checkRun w ["chmod", "+x", "autogen.sh"] with _ | e
    · rcases h2 : checkRun w ["./autogen.sh"] with _ | e
      · rcases hs : seqOpts cfg_cmd with _ | cfg
        · simp [buildSteps, hw, h1, h2, hs] at h
        · rcases hc : checkRun w cfg with _ | e
          · rcases hb : (runBuildCmds w build_cmds).2 with _ | e
            · simp [buildSteps, hw, h1, h2, hs, hc, hb]
            · simp [buildSteps, hw, h1, h2, hs, hc, hb] at h
          · simp [buildSteps, hw, h1, h2, hs, hc] at h
      · simp [buildSteps, hw, h1, h2] at h
    · simp [buildSteps, hw, h1] at h

/-- C8 (amended): for every execution of the build step that completes
normally, the process working directory is restored to its pre-build value;
on a fatal abort (failed subprocess) the restoring `chdir` is skipped — the
exception propagates with the working directory still inside the build
tree, as the counterexample shows. -/
theorem build_restores_cwd_on_success (w : World) (v : String) (ip cg : Option String)
    (up wm : Bool) (cwd0 : String)
    (h : (build_hdf5 w v ip cg up wm cwd0).outcome = none) :
    (build_hdf5 w v ip cg up wm cwd0).cwd = cwd0 := by
  cases hw : w.isWin with
  | true =>
    rw [build_hdf5, hw]
    simp [get_cmake_cmds_callArgCount, get_cmake_cmds_paramCount]
  | false =>
    rw [build_hdf5, hw] at h ⊢
    simp only [Bool.false_eq_true, if_false] at h ⊢
    exact buildSteps_cwd w v ip _ _ _ cwd0 h

/-- C8 witness: the amended statement at a fully successful build. -/
theorem build_restores_cwd_on_success_witness :
    (build_hdf5 wLinux "1.8.17" (some "/tmp/out") none false false "/home/ci").cwd
      = "/home/ci" :=
  build_restores_cwd_on_success wLinux "1.8.17" (some "/tmp/out") none false false
    "/home/ci" (by decide)

/-- C9: `get_cmake_cmds` requires five arguments but the CMake branch of
`build_hdf5` passes four, so on every Windows-family build the step raises
`TypeError` right after the zip extraction: the trace holds the extraction
and nothing else — no configure or build command is run. -/
theorem cmake_call_arity_typeerror (w : World) (v : String) (ip cg : Option String)
    (up wm : Bool) (cwd0 : String) (hwin : w.isWin = true) :
    get_cmake_cmds_callArgCount ≠ get_cmake_cmds_paramCount ∧
    (build_hdf5 w v ip cg up wm cwd0).events = [Event.extractedZip] ∧
    (build_hdf5 w v ip cg up wm cwd0).outcome = some PyError.typeError := by
  unfold build_hdf5
  rw [hwin]
  refine ⟨by decide, ?_, ?_⟩ <;>
    simp [get_cmake_cmds_callArgCount, get_cmake_cmds_paramCount]

/-- C9 witness: the statement on the concrete Windows world. -/
theorem cmake_call_arity_typeerror_witness :
    get_cmake_cmds_callArgCount ≠ get_cmake_cmds_paramCount ∧
    (build_hdf5 wWin "1.10.2" (some "/tmp/out") (some "Visual Studio 14 2015 Win64")
        false false "/home/ci").events = [Event.extractedZip] ∧
    (build_hdf5 wWin "1.10.2" (some "/tmp/out") (some "Visual Studio 14 2015 Win64")
        false false "/home/ci").outcome = some PyError.typeError :=
  cmake_call_arity_typeerror wWin "1.10.2" (some "/tmp/out")
    (some "Visual Studio 14 2015 Win64") false false "/home/ci" rfl

/-- C10: when `HDF5_DIR` is unset (and the Visual-Studio token, if any,
is at least recognized), `main` reaches `hdf5_cached(None)`, whose
`os.path.join(None, ...)` raises `TypeError`: the run ends in an uncaught
`TypeError` with no download, no extraction and no build subprocess in the
trace. -/
theorem missing_install_path_typeerror (w : World) (env : Env) (cwd0 : String)
    (hd : env.hdf5Dir = none)
    (hvs : vsLookupOk env.hdf5VsVersion = true) :
    (main w env cwd0).2.1 = Outcome.raised PyError.typeError ∧
    (∀ u, Event.downloaded u ∉ (main w env cwd0).1) ∧
    Event.extractedZip ∉ (main w env cwd0).1 ∧
    Event.extractedTarGz ∉ (main w env cwd0).1 ∧
    (∀ c, Event.ranCmd c ∉ (main w env cwd0).1) := by
  obtain ⟨d, v, vs, up, mpi⟩ := env
  simp only at hd
  subst hd
  cases vs with
  | none => simp [main, mainAfterCfg, hdf5_cached]
  | some s =>
    simp only [vsLookupOk] at hvs
    cases hvsg : VSVERSION_TO_GENERATOR s with
    | none => rw [hvsg] at hvs; simp at hvs
    | some g => simp [main, mainAfterCfg, hdf5_cached, hvsg]

/-- C10 witness: the statement at the Windows scenario environment. -/
theorem missing_install_path_typeerror_witness :
    (main wWin envC1 "/home/ci").2.1 = Outcome.raised PyError.typeError ∧
    (∀ u, Event.downloaded u ∉ (main wWin envC1 "/home/ci").1) ∧
    Event.extractedZip ∉ (main wWin envC1 "/home/ci").1 ∧
    Event.extractedTarGz ∉ (main wWin envC1 "/home/ci").1 ∧
    (∀ c, Event.ranCmd c ∉ (main wWin envC1 "/home/ci").1) :=
  missing_install_path_typeerror wWin envC1 "/home/ci" rfl (by decide)

end GetHdf5
